import Mathlib

/-!
Shallow embedding of the `node-service-module` repository:
`DependencyContainer`, `ServiceModule` and `ExpressServiceModule`.

JavaScript values relevant to the container are modelled by the inductive
type `Value`.  Static class-side state (the `static` fields of
`ServiceModule` and its subtypes) is modelled by `ModuleWorld`, which keeps
the base class's own properties and, per concrete subtype, the subtype's own
properties; reads fall through to the base class exactly as JavaScript
prototype-chain lookup does.
-/

/-- A JavaScript runtime value, as far as the dependency container can
observe it.  A `cls` is a class reference: it carries the class name, its
own enumerable (static) properties, the instance properties a zero-argument
construction produces, and `ctorThrowMsg`, the message of the exception the
constructor body raises when invoked (or `none` when construction
succeeds).  `inst` is a constructed object; `obj` a plain object literal;
`str`/`num` primitives; `undef` is `undefined`. -/
inductive Value where
  | cls (name : String) (statics : List (String × Value))
        (instProps : List (String × Value)) (ctorThrowMsg : Option String)
  | inst (ofClass : String) (props : List (String × Value))
  | obj (props : List (String × Value))
  | str (s : String)
  | num (n : Int)
  | undef

/-- The `.name` property of a value, used when a class reference is passed
where an injection key is expected (`provider.provide.name`). -/
def jsName : Value → String
  | .cls n _ _ _ => n
  | _ => "undefined"

/-- Own enumerable properties of a value: what `Object.keys` and the object
spread see.  For a class reference these are its static members. -/
def jsOwnProps : Value → List (String × Value)
  | .cls _ statics _ _ => statics
  | .inst _ props => props
  | .obj props => props
  | _ => []

/-- Property read on an association list of properties; absent keys read as
`undefined`, as in JavaScript (`Map.get` and property access alike). -/
def jsLookup : List (String × Value) → String → Value
  | [], _ => .undef
  | p :: rest, k => if p.1 = k then p.2 else jsLookup rest k

/-- Property write / `Map.set`: replace the value at the first matching key
in place (keeping its position), or append a new entry. -/
def assocSet : List (String × Value) → String → Value → List (String × Value)
  | [], k, v => [(k, v)]
  | p :: rest, k, v => if p.1 = k then (k, v) :: rest else p :: assocSet rest k v

/-- Property assignment `target[k] = v` on a value.  Only objects and
instances have assignable properties. -/
def setProp (target : Value) (k : String) (v : Value) : Value :=
  match target with
  | .inst n ps => .inst n (assocSet ps k v)
  | .obj ps => .obj (assocSet ps k v)
  | other => other

/-- Property read `target[k]` on a value. -/
def jsGetProp (target : Value) (k : String) : Value :=
  jsLookup (jsOwnProps target) k

/-- The outcome of evaluating `new object()` on a value: the constructed
instance, or the raised error message.  Non-class values raise a TypeError
whose message contains the phrase `is not a constructor`; a class whose
constructor body throws raises that body's own message. -/
def newProbe : Value → Except String Value
  | .cls name _ instProps none => .ok (.inst name instProps)
  | .cls _ _ _ (some msg) => .error msg
  | _ => .error "value is not a constructor"

/-- Whether the pattern character list occurs at the start of the text. -/
def prefixMatch : List Char → List Char → Bool
  | [], _ => true
  | _ :: _, [] => false
  | p :: ps, c :: cs => if p = c then prefixMatch ps cs else false

/-- Whether the pattern character list occurs anywhere in the text. -/
def infixMatch : List Char → List Char → Bool
  | pat, [] => prefixMatch pat []
  | pat, c :: cs => prefixMatch pat (c :: cs) || infixMatch pat cs

/-- Whether a message contains the substring `is not a constructor`
(the `err.message.indexOf(...) >= 0` test of the source). -/
def containsNotACtor (msg : String) : Bool :=
  infixMatch "is not a constructor".data msg.data

/-- The dependency container: an insertion-ordered map from injection keys
to stored values (`private container: Map<InjectionKey, ...>`). -/
structure DependencyContainer where
  container : List (String × Value)

namespace DependencyContainer

/-- `register(key, value)`: inserts/overwrites the mapping. -/
def register (c : DependencyContainer) (key : String) (value : Value) :
    DependencyContainer :=
  ⟨assocSet c.container key value⟩

/-- `resolve(key)`: the stored value, `undefined` when absent. -/
def resolve (c : DependencyContainer) (key : String) : Value :=
  jsLookup c.container key

/-- `isConstructable(object)`: probe `new object()`; report not
constructable only when the probe raises a message containing
`is not a constructor`; any other outcome counts as constructable. -/
def isConstructable (object : Value) : Bool :=
  match newProbe object with
  | .error err => if containsNotACtor err then false else true
  | .ok _ => true

/-- `buildConstructable(object)`: read the static property names and a copy
of the static properties, construct `new object()`, then assign every
static property onto the instance.  Raises whatever the construction
raises. -/
def buildConstructable (object : Value) : Except String Value :=
  let staticPropKeys := (jsOwnProps object).map Prod.fst
  let staticClassPrototype := jsOwnProps object
  match newProbe object with
  | .error e => .error e
  | .ok constructable =>
      .ok (staticPropKeys.foldl
        (fun acc key => setProp acc key (jsLookup staticClassPrototype key))
        constructable)

/-- The body of `initialize()`'s `forEach`: walk the entries in insertion
order; replace each constructable value by its built instance via
`register`.  If a construction raises, the exception propagates and the
container keeps the partially materialized state. -/
def initGo : List (String × Value) → DependencyContainer →
    DependencyContainer × Option String
  | [], acc => (acc, none)
  | (key, val) :: rest, acc =>
      if isConstructable val then
        match buildConstructable val with
        | .ok dep => initGo rest (acc.register key dep)
        | .error e => (acc, some e)
      else
        initGo rest (acc.register key val)

/-- `initialize()` of the container. -/
def initializeDeps (c : DependencyContainer) :
    DependencyContainer × Option String :=
  initGo c.container c

end DependencyContainer

/-- The value an entry holds after a successful container initialization:
the built instance when constructable, the original value otherwise. -/
def materialize (v : Value) : Value :=
  if DependencyContainer.isConstructable v then
    match DependencyContainer.buildConstructable v with
    | .ok i => i
    | .error _ => v
  else v

/-- A value whose materialization cannot raise: either it is not
constructable, or `new` on it succeeds. -/
def buildOk (v : Value) : Bool :=
  match newProbe v with
  | .ok _ => true
  | .error msg => containsNotACtor msg

/-- An opaque express router handle; the core never inspects it. -/
structure Router where
  id : Nat
deriving DecidableEq

/-- A provider descriptor (`ClassProvider`): `provide` is a string key or a
class reference (whose `.name` becomes the key); `useClass` is the value to
store. -/
structure ClassProvider where
  provide : String ⊕ Value
  useClass : Value

/-- Key derivation shared by the providers setter and `resolveDependency`:
a string is used directly, otherwise the class reference's `.name`. -/
def derivedKey : String ⊕ Value → String
  | .inl k => k
  | .inr v => jsName v

/-- The injection key a provider registers under. -/
def providerKey (p : ClassProvider) : String :=
  derivedKey p.provide

/-- The container the providers setter fills from a provider list,
registering each `useClass` under its derived key, in order. -/
def registerList (ps : List ClassProvider) (c : DependencyContainer) :
    DependencyContainer :=
  ps.foldl (fun c p => c.register (providerKey p) p.useClass) c

/-- `registerList` starting from the empty container of the setter. -/
def containerOf (ps : List ClassProvider) : DependencyContainer :=
  registerList ps ⟨[]⟩

/-- The own static properties of one concrete module subtype.  A field is
`none` when the subtype has no own property of that name, in which case a
read falls through the prototype chain to the base class. -/
structure ModuleStatics where
  dependencies : Option DependencyContainer
  providerKeys : Option (List String)
  _initialized : Option Bool
  _expressRouter : Option Router

/-- The class-side state of the whole program: the base class
`ServiceModule`'s own mutable state (its `providerKeys` array — its
`_initialized` is the initial `false` forever and its `dependencies` stays
undefined, since every write targets a subtype), and each concrete
subtype's own static properties, keyed by subtype name. -/
structure ModuleWorld where
  baseKeys : List String
  subs : String → ModuleStatics

/-- The state before any module has been touched: the base key array is
empty and no subtype has own properties. -/
def ModuleWorld.fresh : ModuleWorld :=
  ⟨[], fun _ => ⟨none, none, none, none⟩⟩

/-- Replace subtype `s`'s own static properties. -/
def ModuleWorld.setSub (w : ModuleWorld) (s : String) (st : ModuleStatics) :
    ModuleWorld :=
  ⟨w.baseKeys, fun t => if t = s then st else w.subs t⟩

/-- Prototype-chain read of `this._initialized` on subtype `s`: the
subtype's own flag, else the base class's `false`. -/
def readInit (w : ModuleWorld) (s : String) : Bool :=
  ((w.subs s)._initialized).getD false

/-- Prototype-chain read of `this.providerKeys` on subtype `s`: the
subtype's own array when it has one, else the base class's shared array. -/
def readProviderKeys (w : ModuleWorld) (s : String) : List String :=
  match (w.subs s).providerKeys with
  | some l => l
  | none => w.baseKeys

/-- `this.providerKeys.push(k)` on subtype `s`: the push mutates whichever
array the prototype-chain read found — the subtype's own array if it has
one, otherwise the base class's shared array. -/
def pushKey (w : ModuleWorld) (s k : String) : ModuleWorld :=
  match (w.subs s).providerKeys with
  | some l => w.setSub s { w.subs s with providerKeys := some (l ++ [k]) }
  | none => { w with baseKeys := w.baseKeys ++ [k] }

/-- `this.dependencies.register(k, v)` on subtype `s`.  Inside the setter
the subtype always has an own container (just assigned). -/
def registerDep (w : ModuleWorld) (s k : String) (v : Value) : ModuleWorld :=
  match (w.subs s).dependencies with
  | some c => w.setSub s { w.subs s with dependencies := some (c.register k v) }
  | none => w

/-- The operation performed at most once per claim: the possibly thrown
error of the four-message taxonomy of the source, plus the raw runtime
errors (`typeError` for dereferencing `undefined`, `thrown` for an
exception escaping user constructor code). -/
inductive JsError where
  | doubleInit (name : String)
  | notInitialized (name : String)
  | providersAfterInit (name : String)
  | unresolvedKey (key : String)
  | typeError (msg : String)
  | thrown (msg : String)
deriving DecidableEq

/-- Whether an error belongs to the four-message taxonomy the spec lists. -/
def isTaxonomyError : JsError → Bool
  | .doubleInit _ => true
  | .notInitialized _ => true
  | .providersAfterInit _ => true
  | .unresolvedKey _ => true
  | _ => false

namespace ServiceModule

/-- The `forEach` body of the providers setter, over the provider list:
derive the key, push it onto the key array found by the prototype-chain
read, and register the raw `useClass` in the subtype's container. -/
def registerAll (s : String) : List ClassProvider → ModuleWorld → ModuleWorld
  | [], w => w
  | p :: rest, w =>
      let injectionKey := providerKey p
      registerAll s rest
        (registerDep (pushKey w s injectionKey) s injectionKey p.useClass)

/-- The `set providers` accessor on subtype `s`.  Note the source replaces
`this.dependencies` with a fresh container before checking the initialized
flag, so the replacement also happens on the error path. -/
def setProviders (w : ModuleWorld) (s : String) (myProviders : List ClassProvider) :
    ModuleWorld × Option JsError :=
  let w1 := w.setSub s { w.subs s with dependencies := some ⟨[]⟩ }
  if readInit w1 s = false then
    (registerAll s myProviders w1, none)
  else
    (w1, some (.providersAfterInit s))

/-- `initialize()` on subtype `s`: when not initialized, run the
container's initialization (a `TypeError` if the container is still
`undefined`); on success set the flag; a construction error leaves the
flag unset but keeps the partially materialized container.  When already
initialized, throw the already-initialized error. -/
def initializeModule (w : ModuleWorld) (s : String) : ModuleWorld × Option JsError :=
  if readInit w s = false then
    match (w.subs s).dependencies with
    | none => (w, some (.typeError "Cannot read properties of undefined"))
    | some c =>
        let r := c.initializeDeps
        match r.2 with
        | some msg =>
            (w.setSub s { w.subs s with dependencies := some r.1 }, some (.thrown msg))
        | none =>
            (w.setSub s
              { w.subs s with dependencies := some r.1, _initialized := some true },
             none)
  else
    (w, some (.doubleInit s))

/-- `destroy()` on subtype `s`: when initialized, assign a fresh empty
container, a fresh empty own key array and `false` to the subtype's own
statics; otherwise throw the not-initialized error. -/
def destroy (w : ModuleWorld) (s : String) : ModuleWorld × Option JsError :=
  if readInit w s = true then
    (w.setSub s
      { w.subs s with
          dependencies := some ⟨[]⟩, providerKeys := some [],
          _initialized := some false },
     none)
  else
    (w, some (.notInitialized s))

/-- `resolveDependency(dependency)` on subtype `s`: not-initialized guard,
key derivation, registered-key check against the prototype-chain read of
the key array, then the container lookup (which itself cannot throw). -/
def resolveDependency (w : ModuleWorld) (s : String) (dependency : String ⊕ Value) :
    Except JsError Value :=
  if readInit w s = false then
    .error (.notInitialized s)
  else
    let dependencyKey := derivedKey dependency
    if dependencyKey ∈ readProviderKeys w s then
      match (w.subs s).dependencies with
      | some c => .ok (c.resolve dependencyKey)
      | none => .error (.typeError "Cannot read properties of undefined")
    else
      .error (.unresolvedKey dependencyKey)

end ServiceModule

/-- The raw content of subtype `s`'s container at key `k` (undefined when
the subtype has no container or no entry). -/
def moduleContainerGet (w : ModuleWorld) (s k : String) : Value :=
  match (w.subs s).dependencies with
  | some c => c.resolve k
  | none => .undef

namespace ExpressServiceModule

/-- The `expressRouter` getter: throw the not-initialized error while the
initialized flag is unset, else return the stored `_expressRouter` own
property (undefined when the decorator never stashed one). -/
def expressRouterGet (w : ModuleWorld) (s : String) : Except JsError (Option Router) :=
  if readInit w s = false then
    .error (.notInitialized s)
  else
    .ok ((w.subs s)._expressRouter)

end ExpressServiceModule

/-! ## Association-list lemmas -/

theorem jsLookup_assocSet_self (ps : List (String × Value)) (k : String) (v : Value) :
    jsLookup (assocSet ps k v) k = v := by
  induction ps with
  | nil => simp [assocSet, jsLookup]
  | cons p rest ih =>
      by_cases h : p.1 = k
      · simp [assocSet, h, jsLookup]
      · simp [assocSet, h, jsLookup, ih]

theorem jsLookup_assocSet_other (ps : List (String × Value)) (k k' : String) (v : Value)
    (h : k' ≠ k) : jsLookup (assocSet ps k v) k' = jsLookup ps k' := by
  have hk : ¬ k = k' := fun h' => h h'.symm
  induction ps with
  | nil => simp [assocSet, jsLookup, hk]
  | cons p rest ih =>
      by_cases hp : p.1 = k
      · subst hp
        simp [assocSet, jsLookup, hk, h]
      · by_cases hp' : p.1 = k'
        · simp [assocSet, hp, jsLookup, hp', h]
        · simp [assocSet, hp, jsLookup, hp', ih]

theorem assocSet_keys (ps : List (String × Value)) (k : String) (v : Value) :
    (assocSet ps k v).map Prod.fst =
      if k ∈ ps.map Prod.fst then ps.map Prod.fst else ps.map Prod.fst ++ [k] := by
  induction ps with
  | nil => simp [assocSet]
  | cons p rest ih =>
      by_cases h : p.1 = k
      · simp [assocSet, h]
      · simp only [assocSet, if_neg h, List.map_cons, ih]
        have : ¬ k = p.1 := fun h' => h h'.symm
        by_cases hm : k ∈ rest.map Prod.fst
        · simp [hm, List.mem_cons, this]
        · simp [hm, List.mem_cons, this]

theorem mem_assocSet_keys (ps : List (String × Value)) (k : String) (v : Value) :
    k ∈ (assocSet ps k v).map Prod.fst := by
  rw [assocSet_keys]
  by_cases h : k ∈ ps.map Prod.fst <;> simp [h]

theorem assocSet_keys_mem_mono (ps : List (String × Value)) (k k' : String) (v : Value)
    (h : k' ∈ ps.map Prod.fst) : k' ∈ (assocSet ps k v).map Prod.fst := by
  rw [assocSet_keys]
  by_cases hm : k ∈ ps.map Prod.fst <;> simp [hm, h]

theorem assocSet_keys_mem_inv (ps : List (String × Value)) (k k' : String) (v : Value)
    (h : k' ∈ (assocSet ps k v).map Prod.fst) : k' ∈ ps.map Prod.fst ∨ k' = k := by
  rw [assocSet_keys] at h
  by_cases hm : k ∈ ps.map Prod.fst
  · rw [if_pos hm] at h; exact Or.inl h
  · rw [if_neg hm] at h
    rcases List.mem_append.1 h with h' | h'
    · exact Or.inl h'
    · exact Or.inr (List.mem_singleton.1 h')

theorem assocSet_keys_nodup (ps : List (String × Value)) (k : String) (v : Value)
    (h : (ps.map Prod.fst).Nodup) : ((assocSet ps k v).map Prod.fst).Nodup := by
  rw [assocSet_keys]
  by_cases hm : k ∈ ps.map Prod.fst
  · rwa [if_pos hm]
  · rw [if_neg hm]
    refine List.Nodup.append h (List.nodup_singleton k) ?_
    intro a ha hb
    rw [List.mem_singleton.1 hb] at ha
    exact hm ha

theorem jsLookup_not_mem (ps : List (String × Value)) (k : String)
    (h : k ∉ ps.map Prod.fst) : jsLookup ps k = .undef := by
  induction ps with
  | nil => rfl
  | cons p rest ih =>
      simp only [List.map_cons, List.mem_cons] at h
      push_neg at h
      have hp : ¬ p.1 = k := fun h' => h.1 h'.symm
      simp only [jsLookup, if_neg hp, ih h.2]

theorem mem_of_mem_assocSet (ps : List (String × Value)) (k : String) (v : Value)
    (e : String × Value) (h : e ∈ assocSet ps k v) : e ∈ ps ∨ e = (k, v) := by
  induction ps with
  | nil => simpa [assocSet] using h
  | cons p rest ih =>
      by_cases hp : p.1 = k
      · simp only [assocSet, if_pos hp, List.mem_cons] at h
        rcases h with h | h
        · exact Or.inr h
        · exact Or.inl (List.mem_cons_of_mem _ h)
      · simp only [assocSet, if_neg hp, List.mem_cons] at h
        rcases h with h | h
        · exact Or.inl (h ▸ List.mem_cons_self _ _)
        · rcases ih h with h' | h'
          · exact Or.inl (List.mem_cons_of_mem _ h')
          · exact Or.inr h'

/-! ## Lemmas about provider registration (`registerList`, `containerOf`) -/

theorem registerList_lookup_not_mem (ps : List ClassProvider) (c : DependencyContainer)
    (k : String) (h : k ∉ ps.map providerKey) :
    (registerList ps c).resolve k = c.resolve k := by
  induction ps generalizing c with
  | nil => rfl
  | cons p rest ih =>
      simp only [List.map_cons, List.mem_cons] at h
      push_neg at h
      show (registerList rest (c.register (providerKey p) p.useClass)).resolve k = _
      rw [ih _ h.2]
      exact jsLookup_assocSet_other _ _ _ _ h.1

theorem registerList_lookup_nodup (ps : List ClassProvider) (c : DependencyContainer)
    (p : ClassProvider) (hn : (ps.map providerKey).Nodup) (hp : p ∈ ps) :
    (registerList ps c).resolve (providerKey p) = p.useClass := by
  induction ps generalizing c with
  | nil => cases hp
  | cons q rest ih =>
      simp only [List.map_cons, List.nodup_cons] at hn
      rcases List.mem_cons.1 hp with h | h
      · subst h
        show (registerList rest (c.register (providerKey p) p.useClass)).resolve _ = _
        rw [registerList_lookup_not_mem _ _ _ hn.1]
        exact jsLookup_assocSet_self _ _ _
      · exact ih _ hn.2 h

theorem registerList_keys_mem_mono (ps : List ClassProvider) (c : DependencyContainer)
    (k : String) (h : k ∈ c.container.map Prod.fst) :
    k ∈ (registerList ps c).container.map Prod.fst := by
  induction ps generalizing c with
  | nil => exact h
  | cons p rest ih =>
      exact ih _ (assocSet_keys_mem_mono _ _ _ _ h)

theorem registerList_keys_mem (ps : List ClassProvider) (c : DependencyContainer)
    (p : ClassProvider) (hp : p ∈ ps) :
    providerKey p ∈ (registerList ps c).container.map Prod.fst := by
  induction ps generalizing c with
  | nil => cases hp
  | cons q rest ih =>
      rcases List.mem_cons.1 hp with h | h
      · subst h
        show providerKey p ∈
          (registerList rest (c.register (providerKey p) p.useClass)).container.map Prod.fst
        exact registerList_keys_mem_mono _ _ _ (mem_assocSet_keys _ _ _)
      · exact ih _ h

theorem registerList_keys_sub (ps : List ClassProvider) (c : DependencyContainer)
    (k : String) (h : k ∈ (registerList ps c).container.map Prod.fst) :
    k ∈ c.container.map Prod.fst ∨ k ∈ ps.map providerKey := by
  induction ps generalizing c with
  | nil => exact Or.inl h
  | cons p rest ih =>
      rcases ih _ h with h' | h'
      · rcases assocSet_keys_mem_inv _ _ _ _ h' with h'' | h''
        · exact Or.inl h''
        · exact Or.inr (by simp [h''])
      · exact Or.inr (List.mem_cons_of_mem _ h')

theorem registerList_keys_nodup (ps : List ClassProvider) (c : DependencyContainer)
    (h : (c.container.map Prod.fst).Nodup) :
    ((registerList ps c).container.map Prod.fst).Nodup := by
  induction ps generalizing c with
  | nil => exact h
  | cons p rest ih =>
      exact ih _ (assocSet_keys_nodup _ _ _ h)

theorem registerList_vals (ps : List ClassProvider) (c : DependencyContainer)
    (Q : Value → Prop) (hps : ∀ p ∈ ps, Q p.useClass)
    (hc : ∀ e ∈ c.container, Q e.2) :
    ∀ e ∈ (registerList ps c).container, Q e.2 := by
  induction ps generalizing c with
  | nil => exact hc
  | cons p rest ih =>
      refine ih _ (fun q hq => hps q (List.mem_cons_of_mem _ hq)) ?_
      intro e he
      rcases mem_of_mem_assocSet _ _ _ _ he with h | h
      · exact hc _ h
      · rw [h]; exact hps p (List.mem_cons_self _ _)

theorem containerOf_keys_sub (ps : List ClassProvider) (k : String)
    (h : k ∈ (containerOf ps).container.map Prod.fst) : k ∈ ps.map providerKey := by
  rcases registerList_keys_sub ps ⟨[]⟩ k h with h' | h'
  · cases h'
  · exact h'

/-! ## Characterization of container initialization -/

/-- A constructable value that is safe to materialize really constructs. -/
theorem exists_build_of_buildOk (v : Value) (hOk : buildOk v = true)
    (hc : DependencyContainer.isConstructable v = true) :
    ∃ i, DependencyContainer.buildConstructable v = .ok i := by
  unfold buildOk at hOk
  unfold DependencyContainer.isConstructable at hc
  unfold DependencyContainer.buildConstructable
  cases hb : newProbe v with
  | ok i => exact ⟨_, rfl⟩
  | error msg =>
      rw [hb] at hOk hc
      simp at hOk
      simp [hOk] at hc

/-- When every stored value materializes without raising and the keys are
distinct, `initialize()` of the container succeeds and afterwards each key
of the walked entry list resolves to the materialized original value, while
other keys still resolve as in the accumulator. -/
theorem initGo_spec (l : List (String × Value)) (acc : DependencyContainer)
    (hOk : ∀ e ∈ l, buildOk e.2 = true) (hn : (l.map Prod.fst).Nodup) :
    (DependencyContainer.initGo l acc).2 = none ∧
    ∀ k, (DependencyContainer.initGo l acc).1.resolve k =
      if k ∈ l.map Prod.fst then materialize (jsLookup l k)
      else acc.resolve k := by
  induction l generalizing acc with
  | nil =>
      refine ⟨rfl, fun k => ?_⟩
      simp [DependencyContainer.initGo]
  | cons e rest ih =>
      obtain ⟨key, val⟩ := e
      simp only [List.map_cons, List.nodup_cons] at hn
      have hOkv : buildOk val = true := hOk _ (List.mem_cons_self _ _)
      have hOkr : ∀ e ∈ rest, buildOk e.2 = true :=
        fun e he => hOk e (List.mem_cons_of_mem _ he)
      have hstep :
          DependencyContainer.initGo ((key, val) :: rest) acc =
            DependencyContainer.initGo rest (acc.register key (materialize val)) := by
        by_cases hc : DependencyContainer.isConstructable val
        · obtain ⟨i, hi⟩ := exists_build_of_buildOk val hOkv hc
          have hm : materialize val = i := by
            unfold materialize
            rw [if_pos hc, hi]
          simp [DependencyContainer.initGo, hc, hi, hm]
        · have hm : materialize val = val := by
            unfold materialize
            rw [if_neg hc]
          simp [DependencyContainer.initGo, hc, hm]
      rw [hstep]
      obtain ⟨hnone, hres⟩ := ih (acc.register key (materialize val)) hOkr hn.2
      refine ⟨hnone, fun k => ?_⟩
      rw [hres k]
      by_cases hk : k ∈ rest.map Prod.fst
      · have : k ∈ ((key, val) :: rest).map Prod.fst := by
          simp [List.mem_cons, hk]
        rw [if_pos hk, if_pos this]
        have hkk : ¬ key = k := fun h => hn.1 (h ▸ hk)
        simp [jsLookup, hkk]
      · by_cases hkey : k = key
        · subst hkey
          have : k ∈ ((k, val) :: rest).map Prod.fst := by simp
          rw [if_neg hk, if_pos this]
          show (acc.register k (materialize val)).resolve k = _
          unfold DependencyContainer.register DependencyContainer.resolve
          rw [jsLookup_assocSet_self]
          simp [jsLookup]
        · have : k ∉ ((key, val) :: rest).map Prod.fst := by
            simp only [List.map_cons, List.mem_cons]
            push_neg
            exact ⟨hkey, hk⟩
          rw [if_neg hk, if_neg this]
          show (acc.register key (materialize val)).resolve k = acc.resolve k
          unfold DependencyContainer.register DependencyContainer.resolve
          exact jsLookup_assocSet_other _ _ _ _ hkey

/-- Splitting `materialize` along the constructable test, under `buildOk`. -/
theorem materialize_spec (v : Value) (hOk : buildOk v = true) :
    (DependencyContainer.isConstructable v = true →
      DependencyContainer.buildConstructable v = .ok (materialize v)) ∧
    (DependencyContainer.isConstructable v = false → materialize v = v) := by
  constructor
  · intro hc
    obtain ⟨i, hi⟩ := exists_build_of_buildOk v hOk hc
    unfold materialize
    rw [if_pos hc, hi]
  · intro hc
    unfold materialize
    rw [if_neg (by simp [hc])]

/-! ## Lemmas about the static module state -/

theorem setSub_subs_self (w : ModuleWorld) (s : String) (st : ModuleStatics) :
    (w.setSub s st).subs s = st := by
  simp [ModuleWorld.setSub]

theorem setSub_subs_other (w : ModuleWorld) (s t : String) (st : ModuleStatics)
    (h : t ≠ s) : (w.setSub s st).subs t = w.subs t := by
  simp [ModuleWorld.setSub, h]

theorem setSub_baseKeys (w : ModuleWorld) (s : String) (st : ModuleStatics) :
    (w.setSub s st).baseKeys = w.baseKeys := rfl

theorem pushKey_subs_other (w : ModuleWorld) (s t k : String) (h : t ≠ s) :
    (pushKey w s k).subs t = w.subs t := by
  unfold pushKey
  cases (w.subs s).providerKeys with
  | some l => exact setSub_subs_other _ _ _ _ h
  | none => rfl

theorem pushKey_deps (w : ModuleWorld) (s k : String) :
    ((pushKey w s k).subs s).dependencies = (w.subs s).dependencies := by
  unfold pushKey
  cases (w.subs s).providerKeys with
  | some l => rw [setSub_subs_self]
  | none => rfl

theorem pushKey_flag (w : ModuleWorld) (s k : String) :
    ((pushKey w s k).subs s)._initialized = (w.subs s)._initialized := by
  unfold pushKey
  cases (w.subs s).providerKeys with
  | some l => rw [setSub_subs_self]
  | none => rfl

theorem pushKey_read (w : ModuleWorld) (s k : String) :
    readProviderKeys (pushKey w s k) s = readProviderKeys w s ++ [k] := by
  unfold pushKey readProviderKeys
  cases h : (w.subs s).providerKeys with
  | some l => rw [setSub_subs_self]
  | none => simp [h]

theorem pushKey_own (w : ModuleWorld) (s k : String) (l : List String)
    (h : (w.subs s).providerKeys = some l) :
    (pushKey w s k).baseKeys = w.baseKeys ∧
    ((pushKey w s k).subs s).providerKeys = some (l ++ [k]) := by
  unfold pushKey
  rw [h]
  exact ⟨rfl, by rw [setSub_subs_self]⟩

theorem pushKey_keeps_own (w : ModuleWorld) (s k : String)
    (h : (w.subs s).providerKeys ≠ none) :
    ((pushKey w s k).subs s).providerKeys ≠ none := by
  unfold pushKey
  cases hl : (w.subs s).providerKeys with
  | some l => rw [setSub_subs_self]; simp
  | none => exact absurd hl h

theorem registerDep_subs_other (w : ModuleWorld) (s t k : String) (v : Value)
    (h : t ≠ s) : (registerDep w s k v).subs t = w.subs t := by
  unfold registerDep
  cases (w.subs s).dependencies with
  | some c => exact setSub_subs_other _ _ _ _ h
  | none => rfl

theorem registerDep_keysField (w : ModuleWorld) (s k : String) (v : Value) :
    ((registerDep w s k v).subs s).providerKeys = (w.subs s).providerKeys ∧
    (registerDep w s k v).baseKeys = w.baseKeys := by
  unfold registerDep
  cases (w.subs s).dependencies with
  | some c => rw [setSub_subs_self]; exact ⟨rfl, rfl⟩
  | none => exact ⟨rfl, rfl⟩

theorem registerDep_keys (w : ModuleWorld) (s k : String) (v : Value) :
    ∀ t, readProviderKeys (registerDep w s k v) t = readProviderKeys w t := by
  intro t
  unfold readProviderKeys
  by_cases h : t = s
  · subst h
    rw [(registerDep_keysField w t k v).1, (registerDep_keysField w t k v).2]
  · rw [registerDep_subs_other _ _ _ _ _ h, (registerDep_keysField w s k v).2]

theorem registerDep_flag (w : ModuleWorld) (s k : String) (v : Value) :
    ((registerDep w s k v).subs s)._initialized = (w.subs s)._initialized := by
  unfold registerDep
  cases (w.subs s).dependencies with
  | some c => rw [setSub_subs_self]
  | none => rfl

theorem registerDep_deps (w : ModuleWorld) (s k : String) (v : Value)
    (c : DependencyContainer) (h : (w.subs s).dependencies = some c) :
    ((registerDep w s k v).subs s).dependencies = some (c.register k v) := by
  unfold registerDep
  rw [h, setSub_subs_self]

theorem registerAll_subs_other (s : String) (ps : List ClassProvider)
    (w : ModuleWorld) (t : String) (h : t ≠ s) :
    (ServiceModule.registerAll s ps w).subs t = w.subs t := by
  induction ps generalizing w with
  | nil => rfl
  | cons p rest ih =>
      show (ServiceModule.registerAll s rest _).subs t = _
      rw [ih, registerDep_subs_other _ _ _ _ _ h, pushKey_subs_other _ _ _ _ h]

theorem registerAll_read (s : String) (ps : List ClassProvider) (w : ModuleWorld) :
    readProviderKeys (ServiceModule.registerAll s ps w) s =
      readProviderKeys w s ++ ps.map providerKey := by
  induction ps generalizing w with
  | nil => simp [ServiceModule.registerAll]
  | cons p rest ih =>
      show readProviderKeys (ServiceModule.registerAll s rest _) s = _
      rw [ih, registerDep_keys, pushKey_read]
      simp

theorem registerAll_flag (s : String) (ps : List ClassProvider) (w : ModuleWorld) :
    ((ServiceModule.registerAll s ps w).subs s)._initialized =
      (w.subs s)._initialized := by
  induction ps generalizing w with
  | nil => rfl
  | cons p rest ih =>
      show ((ServiceModule.registerAll s rest _).subs s)._initialized = _
      rw [ih, registerDep_flag, pushKey_flag]

theorem registerAll_deps (s : String) (ps : List ClassProvider) (w : ModuleWorld)
    (c : DependencyContainer) (h : (w.subs s).dependencies = some c) :
    ((ServiceModule.registerAll s ps w).subs s).dependencies =
      some (registerList ps c) := by
  induction ps generalizing w c with
  | nil => exact h
  | cons p rest ih =>
      show ((ServiceModule.registerAll s rest _).subs s).dependencies = _
      refine ih _ _ ?_
      refine registerDep_deps _ _ _ _ _ ?_
      rw [pushKey_deps, h]

theorem registerAll_own (s : String) (ps : List ClassProvider) (w : ModuleWorld)
    (h : (w.subs s).providerKeys ≠ none) :
    (ServiceModule.registerAll s ps w).baseKeys = w.baseKeys := by
  induction ps generalizing w with
  | nil => rfl
  | cons p rest ih =>
      show (ServiceModule.registerAll s rest _).baseKeys = _
      rw [ih]
      · rw [(registerDep_keysField _ _ _ _).2]
        unfold pushKey
        cases hl : (w.subs s).providerKeys with
        | some l => rfl
        | none => exact absurd hl h
      · rw [(registerDep_keysField _ _ _ _).1]
        exact pushKey_keeps_own _ _ _ h

/-! ## Characterizations of the ServiceModule operations -/

theorem setProviders_uninit (w : ModuleWorld) (s : String) (ps : List ClassProvider)
    (h : readInit w s = false) :
    (ServiceModule.setProviders w s ps).2 = none ∧
    (let wS := (ServiceModule.setProviders w s ps).1
     readInit wS s = false ∧
     readProviderKeys wS s = readProviderKeys w s ++ ps.map providerKey ∧
     (wS.subs s).dependencies = some (containerOf ps) ∧
     (∀ t, t ≠ s → wS.subs t = w.subs t) ∧
     ((w.subs s).providerKeys ≠ none → wS.baseKeys = w.baseKeys)) := by
  have hflag : ((w.setSub s
      { w.subs s with dependencies := some ⟨[]⟩ }).subs s)._initialized =
      (w.subs s)._initialized := by
    rw [setSub_subs_self]
  have h1 : readInit (w.setSub s { w.subs s with dependencies := some ⟨[]⟩ }) s
      = false := by
    unfold readInit at h ⊢
    rw [hflag]; exact h
  unfold ServiceModule.setProviders
  rw [if_pos h1]
  refine ⟨rfl, ?_, ?_, ?_, ?_, ?_⟩
  · show readInit (ServiceModule.registerAll s ps _) s = false
    unfold readInit
    rw [registerAll_flag, hflag]
    exact h
  · show readProviderKeys (ServiceModule.registerAll s ps _) s = _
    rw [registerAll_read]
    unfold readProviderKeys
    rw [setSub_subs_self]
    cases hk : (w.subs s).providerKeys <;> simp [hk, ModuleWorld.setSub]
  · show ((ServiceModule.registerAll s ps _).subs s).dependencies = _
    exact registerAll_deps _ _ _ _ (by rw [setSub_subs_self])
  · intro t ht
    show (ServiceModule.registerAll s ps _).subs t = _
    rw [registerAll_subs_other _ _ _ _ ht, setSub_subs_other _ _ _ _ ht]
  · intro hown
    show (ServiceModule.registerAll s ps _).baseKeys = _
    rw [registerAll_own]
    · rfl
    · rw [setSub_subs_self]; exact hown

theorem setProviders_initialized (w : ModuleWorld) (s : String)
    (ps : List ClassProvider) (h : readInit w s = true) :
    ServiceModule.setProviders w s ps =
      (w.setSub s { w.subs s with dependencies := some ⟨[]⟩ },
       some (.providersAfterInit s)) := by
  have h1 : readInit (w.setSub s { w.subs s with dependencies := some ⟨[]⟩ }) s
      = true := by
    unfold readInit at h ⊢
    rw [setSub_subs_self]
    exact h
  unfold ServiceModule.setProviders
  simp only [h1]
  simp

theorem initializeModule_success (w : ModuleWorld) (s : String)
    (c : DependencyContainer) (h : readInit w s = false)
    (hc : (w.subs s).dependencies = some c) (hok : c.initializeDeps.2 = none) :
    ServiceModule.initializeModule w s =
      (w.setSub s
        { w.subs s with
            dependencies := some c.initializeDeps.1,
            _initialized := some true }, none) := by
  unfold ServiceModule.initializeModule
  rw [if_pos h, hc]
  simp only [hok]

theorem initializeModule_fails (w : ModuleWorld) (s : String)
    (c : DependencyContainer) (msg : String) (h : readInit w s = false)
    (hc : (w.subs s).dependencies = some c)
    (hbad : c.initializeDeps.2 = some msg) :
    ServiceModule.initializeModule w s =
      (w.setSub s { w.subs s with dependencies := some c.initializeDeps.1 },
       some (.thrown msg)) := by
  unfold ServiceModule.initializeModule
  rw [if_pos h, hc]
  simp only [hbad]

theorem destroy_success (w : ModuleWorld) (s : String) (h : readInit w s = true) :
    ServiceModule.destroy w s =
      (w.setSub s
        { w.subs s with
            dependencies := some ⟨[]⟩, providerKeys := some [],
            _initialized := some false }, none) := by
  unfold ServiceModule.destroy
  rw [if_pos h]

theorem destroy_uninit (w : ModuleWorld) (s : String) (h : readInit w s = false) :
    ServiceModule.destroy w s = (w, some (.notInitialized s)) := by
  unfold ServiceModule.destroy
  rw [h]
  simp

theorem resolveDependency_ok (w : ModuleWorld) (s : String) (dep : String ⊕ Value)
    (c : DependencyContainer) (h : readInit w s = true)
    (hk : derivedKey dep ∈ readProviderKeys w s)
    (hc : (w.subs s).dependencies = some c) :
    ServiceModule.resolveDependency w s dep = .ok (c.resolve (derivedKey dep)) := by
  unfold ServiceModule.resolveDependency
  rw [h, hc]
  simp [hk]

theorem resolveDependency_unresolved (w : ModuleWorld) (s : String)
    (dep : String ⊕ Value) (h : readInit w s = true)
    (hk : derivedKey dep ∉ readProviderKeys w s) :
    ServiceModule.resolveDependency w s dep =
      .error (.unresolvedKey (derivedKey dep)) := by
  unfold ServiceModule.resolveDependency
  rw [h]
  simp [hk]

theorem resolveDependency_uninit (w : ModuleWorld) (s : String)
    (dep : String ⊕ Value) (h : readInit w s = false) :
    ServiceModule.resolveDependency w s dep = .error (.notInitialized s) := by
  unfold ServiceModule.resolveDependency
  rw [h]
  simp

theorem readKeys_setSub_keep (w : ModuleWorld) (s : String) (st : ModuleStatics)
    (h : st.providerKeys = (w.subs s).providerKeys) :
    readProviderKeys (w.setSub s st) s = readProviderKeys w s := by
  unfold readProviderKeys
  rw [setSub_subs_self, h]
  rfl

/-- Setting providers on an uninitialized module and then initializing it:
both steps succeed when every provider value materializes without raising,
the flag becomes set, the derived keys are appended to the visible key
array, other subtypes are untouched, and the module's container afterwards
resolves exactly the materialized registered entries. -/
theorem setThenInit_spec (w : ModuleWorld) (s : String) (ps : List ClassProvider)
    (hInit : readInit w s = false) (hOk : ∀ p ∈ ps, buildOk p.useClass = true) :
    (ServiceModule.setProviders w s ps).2 = none ∧
    (ServiceModule.initializeModule (ServiceModule.setProviders w s ps).1 s).2 = none ∧
    (let wF := (ServiceModule.initializeModule (ServiceModule.setProviders w s ps).1 s).1
     readInit wF s = true ∧
     readProviderKeys wF s = readProviderKeys w s ++ ps.map providerKey ∧
     (∀ t, t ≠ s → wF.subs t = w.subs t) ∧
     ∃ c, (wF.subs s).dependencies = some c ∧
       (∀ k, k ∈ (containerOf ps).container.map Prod.fst →
          c.resolve k = materialize ((containerOf ps).resolve k)) ∧
       (∀ k, k ∉ (containerOf ps).container.map Prod.fst →
          c.resolve k = Value.undef)) := by
  obtain ⟨hs2, hfS, hkeysS, hdepsS, hothS, _⟩ := setProviders_uninit w s ps hInit
  have hOkE : ∀ e ∈ (containerOf ps).container, buildOk e.2 = true := by
    refine registerList_vals ps ⟨[]⟩ (fun v => buildOk v = true) hOk ?_
    intro e he
    cases he
  have hnd : ((containerOf ps).container.map Prod.fst).Nodup := by
    refine registerList_keys_nodup ps ⟨[]⟩ ?_
    simp
  obtain ⟨hnone, hres⟩ :=
    initGo_spec (containerOf ps).container (containerOf ps) hOkE hnd
  have hnone' : (containerOf ps).initializeDeps.2 = none := hnone
  have hinit := initializeModule_success _ s (containerOf ps) hfS hdepsS hnone'
  refine ⟨hs2, ?_, ?_⟩
  · rw [hinit]
  · rw [hinit]
    refine ⟨?_, ?_, ?_, ?_⟩
    · unfold readInit
      rw [setSub_subs_self]
      simp
    · rw [readKeys_setSub_keep]
      · exact hkeysS
      · rfl
    · intro t ht
      rw [setSub_subs_other _ _ _ _ ht]
      exact hothS t ht
    · refine ⟨(containerOf ps).initializeDeps.1, ?_, ?_, ?_⟩
      · rw [setSub_subs_self]
      · intro k hk
        have := hres k
        rw [if_pos hk] at this
        exact this
      · intro k hk
        have := hres k
        rw [if_neg hk] at this
        have habs : (containerOf ps).resolve k = Value.undef :=
          jsLookup_not_mem _ _ hk
        exact this.trans habs

/-! ## Lemmas about static-property copying in `buildConstructable` -/

theorem foldl_setProp_inst (keys : List String) (src : List (String × Value))
    (n : String) (ps : List (String × Value)) :
    keys.foldl (fun acc key => setProp acc key (jsLookup src key)) (.inst n ps) =
      .inst n (keys.foldl (fun a key => assocSet a key (jsLookup src key)) ps) := by
  induction keys generalizing ps with
  | nil => rfl
  | cons k0 rest ih => exact ih _

theorem foldl_assocSet_lookup_not_mem (keys : List String)
    (src ps : List (String × Value)) (k : String) (h : k ∉ keys) :
    jsLookup (keys.foldl (fun a key => assocSet a key (jsLookup src key)) ps) k =
      jsLookup ps k := by
  induction keys generalizing ps with
  | nil => rfl
  | cons k0 rest ih =>
      simp only [List.mem_cons] at h
      push_neg at h
      show jsLookup (rest.foldl _ (assocSet ps k0 (jsLookup src k0))) k = _
      rw [ih _ h.2, jsLookup_assocSet_other _ _ _ _ h.1]

theorem foldl_assocSet_lookup_mem (keys : List String)
    (src ps : List (String × Value)) (k : String) (hmem : k ∈ keys)
    (hnd : keys.Nodup) :
    jsLookup (keys.foldl (fun a key => assocSet a key (jsLookup src key)) ps) k =
      jsLookup src k := by
  induction keys generalizing ps with
  | nil => cases hmem
  | cons k0 rest ih =>
      simp only [List.nodup_cons] at hnd
      rcases List.mem_cons.1 hmem with h | h
      · subst h
        show jsLookup (rest.foldl _ (assocSet ps k (jsLookup src k))) k = _
        rw [foldl_assocSet_lookup_not_mem _ _ _ _ hnd.1,
          jsLookup_assocSet_self]
      · exact ih _ h hnd.2

theorem jsLookup_of_mem_nodup (ps : List (String × Value)) (k : String) (x : Value)
    (hnd : (ps.map Prod.fst).Nodup) (hmem : (k, x) ∈ ps) :
    jsLookup ps k = x := by
  induction ps with
  | nil => cases hmem
  | cons p rest ih =>
      simp only [List.map_cons, List.nodup_cons] at hnd
      rcases List.mem_cons.1 hmem with h | h
      · rw [← h]
        simp [jsLookup]
      · have hk : k ∈ rest.map Prod.fst :=
          List.mem_map.2 ⟨(k, x), h, rfl⟩
        have hne : ¬ p.1 = k := fun he => hnd.1 (he ▸ hk)
        simp only [jsLookup, if_neg hne]
        exact ih hnd.2 h

/-! ## Claim C3 -/

/-- Claim C3 (confirmed): the container classifies a value as
non-constructable exactly when the `new` probe raises an error whose
message contains `is not a constructor`; every other probe outcome — a
successful construction, or an error with any other message, including a
constructor throwing for its own reasons — leaves the value classified as
constructable. -/
theorem claim_c3 (v : Value) :
    DependencyContainer.isConstructable v = false ↔
      ∃ msg, newProbe v = .error msg ∧ containsNotACtor msg = true := by
  unfold DependencyContainer.isConstructable
  cases hb : newProbe v with
  | ok i =>
      simp
  | error msg =>
      by_cases hm : containsNotACtor msg
      · simp [hm]
      · simp [hm]

/-! ## Claim C6 -/

/-- Claim C6 counterexample: the class `T` below (a constructor that
throws with message `boom`) is classified constructable, yet its
materialization raises instead of building an instance, so its static
member `s` is reachable on no resolved instance. -/
theorem claim_c6_counterexample :
    DependencyContainer.isConstructable
      (.cls "T" [("s", .str "x")] [] (some "boom")) = true ∧
    DependencyContainer.buildConstructable
      (.cls "T" [("s", .str "x")] [] (some "boom")) = .error "boom" := by
  constructor
  · rfl
  · rfl

/-- Claim C6 as amended (the claim restricted to constructable values whose
zero-argument construction succeeds, i.e. class references whose
constructor body does not throw; static property names are distinct, as
JavaScript own-property names are): such a value is constructable, its
materialization builds an instance of the class, and every static member
is reachable on the built instance under the same property name. -/
theorem claim_c6_amended (name : String) (statics instProps : List (String × Value))
    (hnd : (statics.map Prod.fst).Nodup) :
    DependencyContainer.isConstructable (.cls name statics instProps none) = true ∧
    ∃ ps, DependencyContainer.buildConstructable (.cls name statics instProps none) =
        .ok (.inst name ps) ∧
      ∀ kx ∈ statics, jsGetProp (.inst name ps) kx.1 = kx.2 := by
  refine ⟨rfl, ?_⟩
  unfold DependencyContainer.buildConstructable
  show ∃ ps,
    Except.ok ((statics.map Prod.fst).foldl
      (fun acc key => setProp acc key (jsLookup statics key)) (.inst name instProps))
      = Except.ok (Value.inst name ps) ∧ _
  rw [foldl_setProp_inst]
  refine ⟨_, rfl, ?_⟩
  intro kx hkx
  unfold jsGetProp jsOwnProps
  rw [foldl_assocSet_lookup_mem _ _ _ _ (List.mem_map.2 ⟨kx, hkx, rfl⟩) hnd]
  exact jsLookup_of_mem_nodup _ _ _ hnd hkx

/-- Claim C6 witness: a concrete class with one static member; the built
instance carries it. -/
theorem claim_c6_witness :
    DependencyContainer.isConstructable
      (.cls "L" [("count", .num 7)] [] none) = true ∧
    ∃ ps, DependencyContainer.buildConstructable
        (.cls "L" [("count", .num 7)] [] none) = .ok (.inst "L" ps) ∧
      ∀ kx ∈ [(("count" : String), Value.num 7)],
        jsGetProp (.inst "L" ps) kx.1 = kx.2 :=
  claim_c6_amended "L" [("count", .num 7)] [] (by simp)

/-! ## Cross-subtype isolation lemmas -/

theorem setProviders_subs_other (w : ModuleWorld) (A B : String)
    (P : List ClassProvider) (h : B ≠ A) :
    (ServiceModule.setProviders w A P).1.subs B = w.subs B := by
  by_cases hi : readInit w A = false
  · obtain ⟨_, _, _, _, hoth, _⟩ := setProviders_uninit w A P hi
    exact hoth B h
  · have ht : readInit w A = true := by
      revert hi; cases readInit w A <;> simp
    rw [setProviders_initialized w A P ht]
    exact setSub_subs_other _ _ _ _ h

theorem setProviders_baseKeys_of_init (w : ModuleWorld) (A : String)
    (P : List ClassProvider) (h : readInit w A = true) :
    (ServiceModule.setProviders w A P).1.baseKeys = w.baseKeys := by
  rw [setProviders_initialized w A P h]
  rfl

theorem initializeModule_subs_other (w : ModuleWorld) (A B : String) (h : B ≠ A) :
    (ServiceModule.initializeModule w A).1.subs B = w.subs B := by
  by_cases hi : readInit w A = false
  · cases hd : (w.subs A).dependencies with
    | none =>
        unfold ServiceModule.initializeModule
        rw [if_pos hi, hd]
    | some c =>
        cases he : c.initializeDeps.2 with
        | none =>
            rw [initializeModule_success w A c hi hd he]
            exact setSub_subs_other _ _ _ _ h
        | some msg =>
            rw [initializeModule_fails w A c msg hi hd he]
            exact setSub_subs_other _ _ _ _ h
  · unfold ServiceModule.initializeModule
    rw [if_neg hi]

theorem initializeModule_baseKeys (w : ModuleWorld) (A : String) :
    (ServiceModule.initializeModule w A).1.baseKeys = w.baseKeys := by
  by_cases hi : readInit w A = false
  · cases hd : (w.subs A).dependencies with
    | none =>
        unfold ServiceModule.initializeModule
        rw [if_pos hi, hd]
    | some c =>
        cases he : c.initializeDeps.2 with
        | none => rw [initializeModule_success w A c hi hd he]; rfl
        | some msg => rw [initializeModule_fails w A c msg hi hd he]; rfl
  · unfold ServiceModule.initializeModule
    rw [if_neg hi]

theorem destroy_subs_other (w : ModuleWorld) (A B : String) (h : B ≠ A) :
    (ServiceModule.destroy w A).1.subs B = w.subs B := by
  by_cases hi : readInit w A = true
  · rw [destroy_success w A hi]
    exact setSub_subs_other _ _ _ _ h
  · have hf : readInit w A = false := by
      revert hi; cases readInit w A <;> simp
    rw [destroy_uninit w A hf]

theorem destroy_baseKeys (w : ModuleWorld) (A : String) :
    (ServiceModule.destroy w A).1.baseKeys = w.baseKeys := by
  by_cases hi : readInit w A = true
  · rw [destroy_success w A hi]; rfl
  · have hf : readInit w A = false := by
      revert hi; cases readInit w A <;> simp
    rw [destroy_uninit w A hf]

/-! ## Claim C1 -/

/-- Claim C1 counterexample: on a fresh program state, setting providers on
subtype `A` alone pushes the key `k` into the key array that subtype `B`'s
registered-key list reads (the base class's shared array), so `B`'s
registered-key list changes from `[]` to `[k]` although no operation ever
touched `B`. -/
theorem claim_c1_counterexample :
    readProviderKeys ModuleWorld.fresh "B" = [] ∧
    readProviderKeys
      (ServiceModule.setProviders ModuleWorld.fresh "A"
        [⟨Sum.inl "k", Value.str "v"⟩]).1 "B" = ["k"] :=
  ⟨rfl, rfl⟩

/-- Claim C1 as amended: the dependency container and the initialized flag
of a subtype really are independent across distinct subtypes — setting
providers on `A` leaves `B`'s whole own state (container, flag, own key
array, router) untouched, and initializing or destroying `A` leaves both
`B`'s own state and `B`'s visible registered-key list unchanged.  The
registered-key list, however, is only isolated when `A` or `B` owns its key
array (which happens after a first successful `destroy()`); otherwise the
providers setter on `A` mutates the shared base-class array that `B`
reads. -/
theorem claim_c1_amended (w : ModuleWorld) (A B : String) (P : List ClassProvider)
    (h : B ≠ A) :
    (ServiceModule.setProviders w A P).1.subs B = w.subs B ∧
    (ServiceModule.initializeModule w A).1.subs B = w.subs B ∧
    (ServiceModule.destroy w A).1.subs B = w.subs B ∧
    readProviderKeys (ServiceModule.initializeModule w A).1 B = readProviderKeys w B ∧
    readProviderKeys (ServiceModule.destroy w A).1 B = readProviderKeys w B ∧
    (((w.subs A).providerKeys ≠ none ∨ (w.subs B).providerKeys ≠ none) →
      readProviderKeys (ServiceModule.setProviders w A P).1 B = readProviderKeys w B) := by
  refine ⟨setProviders_subs_other w A B P h, initializeModule_subs_other w A B h,
    destroy_subs_other w A B h, ?_, ?_, ?_⟩
  · unfold readProviderKeys
    rw [initializeModule_subs_other w A B h, initializeModule_baseKeys w A]
  · unfold readProviderKeys
    rw [destroy_subs_other w A B h, destroy_baseKeys w A]
  · intro hown
    unfold readProviderKeys
    rw [setProviders_subs_other w A B P h]
    cases hB : (w.subs B).providerKeys with
    | some l => rfl
    | none =>
        have hA : (w.subs A).providerKeys ≠ none := by
          rcases hown with hA | hB'
          · exact hA
          · exact absurd hB hB'
        by_cases hi : readInit w A = false
        · obtain ⟨_, _, _, _, _, hbase⟩ := setProviders_uninit w A P hi
          rw [hbase hA]
        · have ht : readInit w A = true := by
            revert hi; cases readInit w A <;> simp
          rw [setProviders_baseKeys_of_init w A P ht]

/-- Claim C1 witness: a concrete world in which `A` owns its key array;
destroying `A` and setting providers on `A` leave `B`'s state and visible
keys unchanged. -/
theorem claim_c1_witness :
    (ServiceModule.destroy
        (ModuleWorld.fresh.setSub "A" ⟨none, some ["x"], none, none⟩) "A").1.subs "B" =
      (ModuleWorld.fresh.setSub "A" ⟨none, some ["x"], none, none⟩).subs "B" ∧
    readProviderKeys
        (ServiceModule.setProviders
          (ModuleWorld.fresh.setSub "A" ⟨none, some ["x"], none, none⟩) "A"
          [⟨Sum.inl "k", Value.str "v"⟩]).1 "B" =
      readProviderKeys (ModuleWorld.fresh.setSub "A" ⟨none, some ["x"], none, none⟩) "B" :=
  ⟨(claim_c1_amended (ModuleWorld.fresh.setSub "A" ⟨none, some ["x"], none, none⟩)
      "A" "B" [⟨Sum.inl "k", Value.str "v"⟩] (by decide)).2.2.1,
   (claim_c1_amended (ModuleWorld.fresh.setSub "A" ⟨none, some ["x"], none, none⟩)
      "A" "B" [⟨Sum.inl "k", Value.str "v"⟩] (by decide)).2.2.2.2.2
     (Or.inl (by decide))⟩

/-! ## Claim C2 -/

/-- Claim C2 counterexample: the provider value `Bad` (a class whose
constructor throws `boom`) is classified constructable, so `initialize()`
raises while materializing it; the module never becomes initialized and
`resolveDependency` for the key derived from the list fails instead of
succeeding. -/
theorem claim_c2_counterexample :
    (ServiceModule.initializeModule
        (ServiceModule.setProviders ModuleWorld.fresh "M"
          [⟨Sum.inl "X", Value.cls "Bad" [] [] (some "boom")⟩]).1 "M").2 =
      some (.thrown "boom") ∧
    ServiceModule.resolveDependency
        (ServiceModule.initializeModule
          (ServiceModule.setProviders ModuleWorld.fresh "M"
            [⟨Sum.inl "X", Value.cls "Bad" [] [] (some "boom")⟩]).1 "M").1 "M"
        (Sum.inl "X") = .error (.notInitialized "M") :=
  ⟨rfl, rfl⟩

/-- Claim C2 as amended (the claim restricted to provider lists with
distinct derived keys — the spec's own per-module key-uniqueness
precondition — whose constructable values construct without raising):
setting the providers on an uninitialized module and initializing both
succeed, and resolving every derived key returns the freshly built
instance when the provider value is constructable and the original value
unchanged otherwise. -/
theorem claim_c2_amended (w : ModuleWorld) (s : String) (P : List ClassProvider)
    (hInit : readInit w s = false) (hNodup : (P.map providerKey).Nodup)
    (hOk : ∀ p ∈ P, buildOk p.useClass = true) :
    (ServiceModule.setProviders w s P).2 = none ∧
    (ServiceModule.initializeModule (ServiceModule.setProviders w s P).1 s).2 = none ∧
    ∀ p ∈ P, ∃ r,
      ServiceModule.resolveDependency
          (ServiceModule.initializeModule (ServiceModule.setProviders w s P).1 s).1 s
          (Sum.inl (providerKey p)) = .ok r ∧
      (DependencyContainer.isConstructable p.useClass = true →
        DependencyContainer.buildConstructable p.useClass = .ok r) ∧
      (DependencyContainer.isConstructable p.useClass = false → r = p.useClass) := by
  obtain ⟨hset, hini, hrest⟩ := setThenInit_spec w s P hInit hOk
  obtain ⟨hflag, hkeys, _, c, hc, hmem, _⟩ := hrest
  refine ⟨hset, hini, ?_⟩
  intro p hp
  have hkmem : providerKey p ∈
      readProviderKeys
        (ServiceModule.initializeModule (ServiceModule.setProviders w s P).1 s).1 s := by
    rw [hkeys]
    exact List.mem_append_right _ (List.mem_map.2 ⟨p, hp, rfl⟩)
  have hres :=
    resolveDependency_ok _ s (Sum.inl (providerKey p)) c hflag hkmem hc
  have hck : providerKey p ∈ (containerOf P).container.map Prod.fst :=
    registerList_keys_mem P ⟨[]⟩ p hp
  have hcv : (containerOf P).resolve (providerKey p) = p.useClass :=
    registerList_lookup_nodup P ⟨[]⟩ p hNodup hp
  have hval : c.resolve (providerKey p) = materialize p.useClass := by
    rw [hmem _ hck, hcv]
  refine ⟨materialize p.useClass, ?_, (materialize_spec p.useClass (hOk p hp)).1,
    (materialize_spec p.useClass (hOk p hp)).2⟩
  rw [hres]
  exact congrArg Except.ok hval

/-- Claim C2 witness: the spec's own example — a class provider and an
object-literal provider; the class key resolves to a built instance, the
object key to the original object unchanged. -/
theorem claim_c2_witness :
    (∃ r,
      ServiceModule.resolveDependency
          (ServiceModule.initializeModule
            (ServiceModule.setProviders ModuleWorld.fresh "M"
              [⟨Sum.inl "Logger", Value.cls "LoggerClass" [] [] none⟩,
               ⟨Sum.inl "config", Value.obj [("debug", Value.num 1)]⟩]).1 "M").1 "M"
          (Sum.inl (providerKey ⟨Sum.inl "Logger",
            Value.cls "LoggerClass" [] [] none⟩)) = .ok r ∧
      (DependencyContainer.isConstructable (Value.cls "LoggerClass" [] [] none) = true →
        DependencyContainer.buildConstructable (Value.cls "LoggerClass" [] [] none) =
          .ok r) ∧
      (DependencyContainer.isConstructable (Value.cls "LoggerClass" [] [] none) = false →
        r = Value.cls "LoggerClass" [] [] none)) ∧
    (∃ r,
      ServiceModule.resolveDependency
          (ServiceModule.initializeModule
            (ServiceModule.setProviders ModuleWorld.fresh "M"
              [⟨Sum.inl "Logger", Value.cls "LoggerClass" [] [] none⟩,
               ⟨Sum.inl "config", Value.obj [("debug", Value.num 1)]⟩]).1 "M").1 "M"
          (Sum.inl (providerKey ⟨Sum.inl "config",
            Value.obj [("debug", Value.num 1)]⟩)) = .ok r ∧
      (DependencyContainer.isConstructable (Value.obj [("debug", Value.num 1)]) = true →
        DependencyContainer.buildConstructable (Value.obj [("debug", Value.num 1)]) =
          .ok r) ∧
      (DependencyContainer.isConstructable (Value.obj [("debug", Value.num 1)]) = false →
        r = Value.obj [("debug", Value.num 1)])) :=
  ⟨(claim_c2_amended ModuleWorld.fresh "M"
      [⟨Sum.inl "Logger", Value.cls "LoggerClass" [] [] none⟩,
       ⟨Sum.inl "config", Value.obj [("debug", Value.num 1)]⟩]
      rfl (by decide) (by decide)).2.2
      ⟨Sum.inl "Logger", Value.cls "LoggerClass" [] [] none⟩
      (List.mem_cons_self _ _),
   (claim_c2_amended ModuleWorld.fresh "M"
      [⟨Sum.inl "Logger", Value.cls "LoggerClass" [] [] none⟩,
       ⟨Sum.inl "config", Value.obj [("debug", Value.num 1)]⟩]
      rfl (by decide) (by decide)).2.2
      ⟨Sum.inl "config", Value.obj [("debug", Value.num 1)]⟩
      (List.mem_cons_of_mem _ (List.mem_cons_self _ _))⟩

/-! ## Claim C5 -/

/-- Claim C5 (confirmed): invoking the providers setter on an initialized
module throws the providers-after-initialization error, but the setter has
already replaced the module's container with a fresh empty one, so the
module state is not unchanged: the flag and the key list survive, and a
subsequent `resolveDependency` for a previously registered key passes the
key check yet resolves against the emptied container, returning
`undefined`. -/
theorem claim_c5 (w : ModuleWorld) (s : String) (Q : List ClassProvider)
    (hInit : readInit w s = true) :
    (ServiceModule.setProviders w s Q).2 = some (.providersAfterInit s) ∧
    ((ServiceModule.setProviders w s Q).1.subs s).dependencies =
      some (⟨[]⟩ : DependencyContainer) ∧
    readInit (ServiceModule.setProviders w s Q).1 s = true ∧
    readProviderKeys (ServiceModule.setProviders w s Q).1 s = readProviderKeys w s ∧
    ∀ k, k ∈ readProviderKeys w s →
      ServiceModule.resolveDependency (ServiceModule.setProviders w s Q).1 s
        (Sum.inl k) = .ok Value.undef := by
  have heq := setProviders_initialized w s Q hInit
  have hflag : readInit (ServiceModule.setProviders w s Q).1 s = true := by
    rw [heq]
    unfold readInit
    rw [setSub_subs_self]
    unfold readInit at hInit
    simpa using hInit
  have hkeys : readProviderKeys (ServiceModule.setProviders w s Q).1 s =
      readProviderKeys w s := by
    rw [heq]
    exact readKeys_setSub_keep _ _ _ rfl
  have hdeps : ((ServiceModule.setProviders w s Q).1.subs s).dependencies =
      some (⟨[]⟩ : DependencyContainer) := by
    rw [heq, setSub_subs_self]
  refine ⟨by rw [heq], hdeps, hflag, hkeys, ?_⟩
  intro k hk
  have hres := resolveDependency_ok (ServiceModule.setProviders w s Q).1 s
    (Sum.inl k) ⟨[]⟩ hflag (by rw [hkeys]; exact hk) hdeps
  rw [hres]
  rfl

/-- Claim C5 witness: a concrete module initialized with one provider; the
setter invocation fails with the providers-after-initialization error and
the old key then resolves to `undefined`. -/
theorem claim_c5_witness :
    (ServiceModule.setProviders
        (ServiceModule.initializeModule
          (ServiceModule.setProviders ModuleWorld.fresh "M"
            [⟨Sum.inl "k", Value.str "v"⟩]).1 "M").1 "M"
        [⟨Sum.inl "q", Value.obj []⟩]).2 = some (.providersAfterInit "M") ∧
    ServiceModule.resolveDependency
        (ServiceModule.setProviders
          (ServiceModule.initializeModule
            (ServiceModule.setProviders ModuleWorld.fresh "M"
              [⟨Sum.inl "k", Value.str "v"⟩]).1 "M").1 "M"
          [⟨Sum.inl "q", Value.obj []⟩]).1 "M" (Sum.inl "k") = .ok Value.undef :=
  ⟨(claim_c5 (ServiceModule.initializeModule
      (ServiceModule.setProviders ModuleWorld.fresh "M"
        [⟨Sum.inl "k", Value.str "v"⟩]).1 "M").1 "M"
      [⟨Sum.inl "q", Value.obj []⟩] rfl).1,
   (claim_c5 (ServiceModule.initializeModule
      (ServiceModule.setProviders ModuleWorld.fresh "M"
        [⟨Sum.inl "k", Value.str "v"⟩]).1 "M").1 "M"
      [⟨Sum.inl "q", Value.obj []⟩] rfl).2.2.2.2 "k" (by decide)⟩

/-! ## Claim C4 -/

/-- Claim C4 counterexample: with prior providers `P1 = []` and new
providers `P2` holding a class whose constructor throws `boom`, the final
`initialize()` of the round trip raises and the key of `P2` then fails to
resolve (not-initialized) instead of resolving to its materialized
value. -/
theorem claim_c4_counterexample :
    (let w1 := (ServiceModule.setProviders ModuleWorld.fresh "M" []).1
     let r2 := ServiceModule.initializeModule w1 "M"
     let r3 := ServiceModule.destroy r2.1 "M"
     let r4 := ServiceModule.setProviders r3.1 "M"
       [⟨Sum.inl "X", Value.cls "Bad" [] [] (some "boom")⟩]
     let r5 := ServiceModule.initializeModule r4.1 "M"
     r2.2 = none ∧ r3.2 = none ∧ r4.2 = none ∧
     r5.2 = some (.thrown "boom") ∧
     ServiceModule.resolveDependency r5.1 "M" (Sum.inl "X") =
       .error (.notInitialized "M")) :=
  ⟨rfl, rfl, rfl, rfl, rfl⟩

/-- Claim C4 as amended (the round trip restricted to provider lists whose
constructable values construct without raising, and with distinct derived
keys in `P2`): after `initialize()`, `destroy()`, setting providers `P2`
and `initialize()` again, every step succeeds, the registered-key list is
exactly `P2`'s keys, every key of `P2` resolves to its materialized value,
and any other key — in particular any key occurring only in `P1` — is
absent from the key list and the container and fails to resolve with the
unresolved-key error: the module is observationally a fresh module
configured with `P2` alone. -/
theorem claim_c4_amended (w : ModuleWorld) (s : String) (P1 P2 : List ClassProvider)
    (hInit : readInit w s = false)
    (hOk1 : ∀ p ∈ P1, buildOk p.useClass = true)
    (hOk2 : ∀ p ∈ P2, buildOk p.useClass = true)
    (hNodup2 : (P2.map providerKey).Nodup) :
    (let w1 := (ServiceModule.setProviders w s P1).1
     let r2 := ServiceModule.initializeModule w1 s
     let r3 := ServiceModule.destroy r2.1 s
     let r4 := ServiceModule.setProviders r3.1 s P2
     let r5 := ServiceModule.initializeModule r4.1 s
     r2.2 = none ∧ r3.2 = none ∧ r4.2 = none ∧ r5.2 = none ∧
     readProviderKeys r5.1 s = P2.map providerKey ∧
     (∀ p ∈ P2, ∃ r,
        ServiceModule.resolveDependency r5.1 s (Sum.inl (providerKey p)) = .ok r ∧
        (DependencyContainer.isConstructable p.useClass = true →
          DependencyContainer.buildConstructable p.useClass = .ok r) ∧
        (DependencyContainer.isConstructable p.useClass = false → r = p.useClass)) ∧
     (∀ k, k ∉ P2.map providerKey →
        ServiceModule.resolveDependency r5.1 s (Sum.inl k) =
          .error (.unresolvedKey k) ∧
        moduleContainerGet r5.1 s k = Value.undef)) := by
  obtain ⟨hset1, hini1, hrest1⟩ := setThenInit_spec w s P1 hInit hOk1
  obtain ⟨hflag1, -, -, -⟩ := hrest1
  have hdes := destroy_success _ s hflag1
  have hflag3 : readInit (ServiceModule.destroy
      (ServiceModule.initializeModule (ServiceModule.setProviders w s P1).1 s).1 s).1 s
      = false := by
    rw [hdes]
    unfold readInit
    rw [setSub_subs_self]
    rfl
  have hkeys3 : readProviderKeys (ServiceModule.destroy
      (ServiceModule.initializeModule (ServiceModule.setProviders w s P1).1 s).1 s).1 s
      = [] := by
    rw [hdes]
    unfold readProviderKeys
    rw [setSub_subs_self]
  obtain ⟨hset2, hini2, hrest2⟩ := setThenInit_spec _ s P2 hflag3 hOk2
  obtain ⟨hflag5, hkeys5, -, c, hc, hmem, hnone⟩ := hrest2
  have hkeysF : readProviderKeys
      (ServiceModule.initializeModule
        (ServiceModule.setProviders
          (ServiceModule.destroy
            (ServiceModule.initializeModule
              (ServiceModule.setProviders w s P1).1 s).1 s).1 s P2).1 s).1 s
      = P2.map providerKey := by
    rw [hkeys5, hkeys3]
    simp
  refine ⟨hini1, by rw [hdes], hset2, hini2, hkeysF, ?_, ?_⟩
  · intro p hp
    have hkmem : providerKey p ∈ readProviderKeys
        (ServiceModule.initializeModule
          (ServiceModule.setProviders
            (ServiceModule.destroy
              (ServiceModule.initializeModule
                (ServiceModule.setProviders w s P1).1 s).1 s).1 s P2).1 s).1 s := by
      rw [hkeysF]
      exact List.mem_map.2 ⟨p, hp, rfl⟩
    have hres := resolveDependency_ok _ s (Sum.inl (providerKey p)) c hflag5 hkmem hc
    have hck : providerKey p ∈ (containerOf P2).container.map Prod.fst :=
      registerList_keys_mem P2 ⟨[]⟩ p hp
    have hcv : (containerOf P2).resolve (providerKey p) = p.useClass :=
      registerList_lookup_nodup P2 ⟨[]⟩ p hNodup2 hp
    have hval : c.resolve (providerKey p) = materialize p.useClass := by
      rw [hmem _ hck, hcv]
    refine ⟨materialize p.useClass, ?_, (materialize_spec p.useClass (hOk2 p hp)).1,
      (materialize_spec p.useClass (hOk2 p hp)).2⟩
    rw [hres]
    exact congrArg Except.ok hval
  · intro k hk
    constructor
    · exact resolveDependency_unresolved _ s (Sum.inl k) hflag5
        (by rw [hkeysF]; exact hk)
    · unfold moduleContainerGet
      rw [hc]
      exact hnone k (fun hmem' => hk (containerOf_keys_sub P2 k hmem'))

/-- Claim C4 witness: a concrete round trip replacing the provider list
`[(a, "u")]` by `[(b, {})]`; afterwards `b` resolves, `a` is gone. -/
theorem claim_c4_witness :
    (let w1 := (ServiceModule.setProviders ModuleWorld.fresh "M"
        [⟨Sum.inl "a", Value.str "u"⟩]).1
     let r2 := ServiceModule.initializeModule w1 "M"
     let r3 := ServiceModule.destroy r2.1 "M"
     let r4 := ServiceModule.setProviders r3.1 "M" [⟨Sum.inl "b", Value.obj []⟩]
     let r5 := ServiceModule.initializeModule r4.1 "M"
     r2.2 = none ∧ r3.2 = none ∧ r4.2 = none ∧ r5.2 = none ∧
     readProviderKeys r5.1 "M" = ["b"] ∧
     (∀ p ∈ ([⟨Sum.inl "b", Value.obj []⟩] : List ClassProvider), ∃ r,
        ServiceModule.resolveDependency r5.1 "M" (Sum.inl (providerKey p)) = .ok r ∧
        (DependencyContainer.isConstructable p.useClass = true →
          DependencyContainer.buildConstructable p.useClass = .ok r) ∧
        (DependencyContainer.isConstructable p.useClass = false → r = p.useClass)) ∧
     (∀ k, k ∉ (["b"] : List String) →
        ServiceModule.resolveDependency r5.1 "M" (Sum.inl k) =
          .error (.unresolvedKey k) ∧
        moduleContainerGet r5.1 "M" k = Value.undef)) :=
  claim_c4_amended ModuleWorld.fresh "M" [⟨Sum.inl "a", Value.str "u"⟩]
    [⟨Sum.inl "b", Value.obj []⟩] rfl (by decide) (by decide) (by decide)

/-! ## Claim C7 -/

/-- Claim C7 (confirmed): on an initialized module, resolving a dependency
whose derived key (a string, or a class reference's name) is not in the
registered-key list throws the unresolved-key error (`Nothing provided`)
and returns no value. -/
theorem claim_c7 (w : ModuleWorld) (s : String) (dep : String ⊕ Value)
    (hInit : readInit w s = true)
    (hk : derivedKey dep ∉ readProviderKeys w s) :
    ServiceModule.resolveDependency w s dep =
      .error (.unresolvedKey (derivedKey dep)) :=
  resolveDependency_unresolved w s dep hInit hk

/-- Claim C7 witness: the spec's own example — resolving `Missing` after
initializing with the Logger/config providers fails with the
unresolved-key error. -/
theorem claim_c7_witness :
    ServiceModule.resolveDependency
        (ServiceModule.initializeModule
          (ServiceModule.setProviders ModuleWorld.fresh "M"
            [⟨Sum.inl "Logger", Value.cls "LoggerClass" [] [] none⟩,
             ⟨Sum.inl "config", Value.obj [("debug", Value.num 1)]⟩]).1 "M").1 "M"
        (Sum.inl "Missing") = .error (.unresolvedKey "Missing") :=
  claim_c7
    (ServiceModule.initializeModule
      (ServiceModule.setProviders ModuleWorld.fresh "M"
        [⟨Sum.inl "Logger", Value.cls "LoggerClass" [] [] none⟩,
         ⟨Sum.inl "config", Value.obj [("debug", Value.num 1)]⟩]).1 "M").1 "M"
    (Sum.inl "Missing") rfl (by decide)

/-! ## Claim C8 -/

/-- Claim C8 (confirmed): on a subtype whose static dependency container
was never assigned (no providers setter invocation and no prior successful
`destroy()`, so the own property is absent and the base class's is
undefined), `initialize()` dereferences `undefined` and raises a
`TypeError` that is none of the four errors of the spec's taxonomy. -/
theorem claim_c8 (w : ModuleWorld) (s : String)
    (hd : (w.subs s).dependencies = none) (hInit : readInit w s = false) :
    ∃ msg, ServiceModule.initializeModule w s = (w, some (.typeError msg)) ∧
      isTaxonomyError (.typeError msg) = false := by
  refine ⟨"Cannot read properties of undefined", ?_, rfl⟩
  unfold ServiceModule.initializeModule
  rw [if_pos hInit, hd]

/-- Claim C8 witness: a fresh subtype; `initialize()` raises the
non-taxonomy `TypeError`. -/
theorem claim_c8_witness :
    ∃ msg, ServiceModule.initializeModule ModuleWorld.fresh "A" =
        (ModuleWorld.fresh, some (.typeError msg)) ∧
      isTaxonomyError (.typeError msg) = false :=
  claim_c8 ModuleWorld.fresh "A" rfl rfl

/-! ## Claim C9 -/

/-- Claim C9 counterexample: with `P1 = [(a, "u")]` and `P2` holding a
class whose constructor throws `boom`, `initialize()` after the two setter
invocations raises, so resolving the `P1`-only key `a` afterwards fails
with the not-initialized error instead of returning `undefined`. -/
theorem claim_c9_counterexample :
    (let wa := (ServiceModule.setProviders ModuleWorld.fresh "M"
        [⟨Sum.inl "a", Value.str "u"⟩]).1
     let wb := (ServiceModule.setProviders wa "M"
        [⟨Sum.inl "b", Value.cls "Bad" [] [] (some "boom")⟩]).1
     let r := ServiceModule.initializeModule wb "M"
     r.2 = some (.thrown "boom") ∧
     ServiceModule.resolveDependency r.1 "M" (Sum.inl "a") =
       .error (.notInitialized "M")) :=
  ⟨rfl, rfl⟩

/-- Claim C9 as amended (restricted to second provider lists whose
constructable values construct without raising, so that `initialize()`
succeeds): two setter invocations without an intervening `destroy()`
append `P2`'s keys to the visible registered-key list without removing
`P1`'s keys, while the container is replaced and holds only `P2`'s
entries; consequently, after `initialize()`, resolving a key occurring
only in `P1` passes the registered-key check and returns `undefined`
instead of failing with the unresolved-key error. -/
theorem claim_c9_amended (w : ModuleWorld) (s : String) (P1 P2 : List ClassProvider)
    (hInit : readInit w s = false)
    (hOk2 : ∀ p ∈ P2, buildOk p.useClass = true) :
    (let wa := (ServiceModule.setProviders w s P1).1
     let r4 := ServiceModule.setProviders wa s P2
     let r5 := ServiceModule.initializeModule r4.1 s
     (ServiceModule.setProviders w s P1).2 = none ∧ r4.2 = none ∧
     readProviderKeys r4.1 s =
       readProviderKeys w s ++ P1.map providerKey ++ P2.map providerKey ∧
     (r4.1.subs s).dependencies = some (containerOf P2) ∧
     r5.2 = none ∧
     ∀ k, k ∈ P1.map providerKey → k ∉ P2.map providerKey →
       ServiceModule.resolveDependency r5.1 s (Sum.inl k) = .ok Value.undef) := by
  obtain ⟨hset1, hflagA, hkeysA, -, -, -⟩ := setProviders_uninit w s P1 hInit
  obtain ⟨hset2, hflagB, hkeysB, hdepsB, -, -⟩ :=
    setProviders_uninit (ServiceModule.setProviders w s P1).1 s P2 hflagA
  obtain ⟨-, hini, hrest⟩ :=
    setThenInit_spec (ServiceModule.setProviders w s P1).1 s P2 hflagA hOk2
  obtain ⟨hflag5, hkeys5, -, c, hc, -, hnone⟩ := hrest
  have hkeysB' : readProviderKeys
      (ServiceModule.setProviders (ServiceModule.setProviders w s P1).1 s P2).1 s =
      readProviderKeys w s ++ P1.map providerKey ++ P2.map providerKey := by
    rw [hkeysB, hkeysA]
  have hkeys5' : readProviderKeys
      (ServiceModule.initializeModule
        (ServiceModule.setProviders (ServiceModule.setProviders w s P1).1 s P2).1 s).1 s =
      readProviderKeys w s ++ P1.map providerKey ++ P2.map providerKey := by
    rw [hkeys5, hkeysA]
  refine ⟨hset1, hset2, hkeysB', hdepsB, hini, ?_⟩
  intro k hk1 hk2
  have hkmem : k ∈ readProviderKeys
      (ServiceModule.initializeModule
        (ServiceModule.setProviders (ServiceModule.setProviders w s P1).1 s P2).1 s).1 s := by
    rw [hkeys5']
    exact List.mem_append_left _ (List.mem_append_right _ hk1)
  have hres := resolveDependency_ok _ s (Sum.inl k) c hflag5 hkmem hc
  have hval : c.resolve k = Value.undef :=
    hnone k (fun hmem' => hk2 (containerOf_keys_sub P2 k hmem'))
  rw [hres]
  exact congrArg Except.ok hval

/-- Claim C9 witness: keys `a` then `b` registered by two setter
invocations; afterwards the list reads `[a, b]`, the container holds only
`b`, and after initialization `a` resolves to `undefined`. -/
theorem claim_c9_witness :
    (let wa := (ServiceModule.setProviders ModuleWorld.fresh "M"
        [⟨Sum.inl "a", Value.str "u"⟩]).1
     let r4 := ServiceModule.setProviders wa "M" [⟨Sum.inl "b", Value.obj []⟩]
     let r5 := ServiceModule.initializeModule r4.1 "M"
     (ServiceModule.setProviders ModuleWorld.fresh "M"
        [⟨Sum.inl "a", Value.str "u"⟩]).2 = none ∧ r4.2 = none ∧
     readProviderKeys r4.1 "M" = [] ++ ["a"] ++ ["b"] ∧
     (r4.1.subs "M").dependencies =
       some (containerOf [⟨Sum.inl "b", Value.obj []⟩]) ∧
     r5.2 = none ∧
     ∀ k, k ∈ (["a"] : List String) → k ∉ (["b"] : List String) →
       ServiceModule.resolveDependency r5.1 "M" (Sum.inl k) = .ok Value.undef) :=
  claim_c9_amended ModuleWorld.fresh "M" [⟨Sum.inl "a", Value.str "u"⟩]
    [⟨Sum.inl "b", Value.obj []⟩] rfl (by decide)

/-! ## Claim C10 -/

/-- Claim C10 (confirmed): reading the `expressRouter` accessor of an
express module subtype throws the not-initialized error while the
initialized flag is unset, and returns the stored router handle unmodified
while it is set. -/
theorem claim_c10 (w : ModuleWorld) (s : String) :
    (readInit w s = false →
      ExpressServiceModule.expressRouterGet w s = .error (.notInitialized s)) ∧
    (readInit w s = true →
      ExpressServiceModule.expressRouterGet w s = .ok ((w.subs s)._expressRouter)) := by
  constructor
  · intro h
    unfold ExpressServiceModule.expressRouterGet
    rw [h]
    simp
  · intro h
    unfold ExpressServiceModule.expressRouterGet
    rw [h]
    simp

/-- Claim C10 witness: an initialized express subtype returns its stored
router handle; an uninitialized one throws the not-initialized error. -/
theorem claim_c10_witness :
    ExpressServiceModule.expressRouterGet
        (ModuleWorld.fresh.setSub "E" ⟨some ⟨[]⟩, some [], some true, some ⟨7⟩⟩) "E" =
      .ok (some ⟨7⟩) ∧
    ExpressServiceModule.expressRouterGet ModuleWorld.fresh "F" =
      .error (.notInitialized "F") :=
  ⟨(claim_c10 (ModuleWorld.fresh.setSub "E" ⟨some ⟨[]⟩, some [], some true, some ⟨7⟩⟩)
      "E").2 rfl,
   (claim_c10 ModuleWorld.fresh "F").1 rfl⟩
